import Mathlib

/-!
Verification of `src/app.py` of the Image-Downloader repository.

The app is a Streamlit page sequencing three functions: `fetch_image_urls`
(paginated queries against the Pexels search API), `filter_images`
(CLIP-based similarity scoring of each fetched URL against the query), and
`download_images_as_zip` (packing downloaded bytes into a zip buffer).

Shallow embedding choices:
- HTTP responses and the CLIP model are external effects; each is passed in
  as an oracle function. `respond : Nat → Nat × List Photo` gives the status
  code and photo list of each page request; `proc : String → String →
  Except String Rat` gives, for a URL and a query, either the similarity
  score the model assigns or the exception raised while processing that
  image; `get : String → Except String (Nat × String)` gives a download's
  status code and body, or the exception raised.
- Python floats are modelled as `Rat`; the literal `0.2` is `1/5`.
- Calls to `st.error` are modelled by collecting the reported messages in a
  list returned alongside the main result; page requests made by
  `fetch_image_urls` are likewise collected in a request log so that
  pagination behaviour is observable.
-/

namespace ImageDownloader

/-- One photo object of a Pexels API response: the fields of its `src`
dictionary that `fetch_image_urls` reads. -/
structure Photo where
  small : String
  medium : String
  large : String
  original : String
deriving DecidableEq, Repr

/-- The `if resolution == ... : image_urls.append(img["src"][...])` chain in
the body of the page loop of `fetch_image_urls` (src/app.py lines 32-39). -/
def photoUrl (resolution : String) (img : Photo) : String :=
  if resolution = "640x480" then img.small
  else if resolution = "1280x720" then img.medium
  else if resolution = "1920x1080" then img.large
  else img.original

/-- A record of one `requests.get(PEXELS_URL, ...)` call made by
`fetch_image_urls`: the page number, the `per_page` parameter sent, how many
URLs had been collected when the request was issued, and the status code of
the response. -/
structure ReqEntry where
  page : Nat
  perPage : Nat
  collectedBefore : Nat
  status : Nat
deriving DecidableEq, Repr

/-- The `for page in range(1, pages + 1)` loop of `fetch_image_urls`
(src/app.py lines 25-45). `fuel` is the number of remaining iterations,
`page` the current page number, `acc` the `image_urls` accumulator.
Returns the final `image_urls` (before the closing `[:num_images]` slice),
the record of the requests issued from this iteration on, in issue order,
and the `st.error` messages reported. -/
def fetchLoop (respond : Nat → Nat × List Photo) (numImages : Nat)
    (resolution : String) :
    Nat → Nat → List String → List String × List ReqEntry × List String
  | 0, _, acc => (acc, [], [])
  | fuel + 1, page, acc =>
    let perPage := min 80 (numImages - acc.length)
    let r := respond page
    let entry : ReqEntry := ⟨page, perPage, acc.length, r.1⟩
    if r.1 = 200 then
      let acc2 := acc ++ r.2.map (photoUrl resolution)
      if numImages ≤ acc2.length then (acc2, [entry], [])
      else
        let rest := fetchLoop respond numImages resolution fuel (page + 1)
          acc2
        (rest.1, entry :: rest.2.1, rest.2.2)
    else ([], [entry], ["Failed to fetch images: " ++ toString r.1])

/-- Embeds `fetch_image_urls(query, num_images, resolution)` (src/app.py lines
19-47). `pages = (num_images // per_page) + 1` with `per_page = 80`; the
returned list is `image_urls[:num_images]`. The query string only flows into
the request parameters, which the `respond` oracle abstracts, so it does not
appear as an argument here. -/
def fetch_image_urls (respond : Nat → Nat × List Photo) (numImages : Nat)
    (resolution : String) : List String × List ReqEntry × List String :=
  let pages := numImages / 80 + 1
  let r := fetchLoop respond numImages resolution pages 1 []
  (r.1.take numImages, r.2.1, r.2.2)

/-- Embeds `filter_images(image_urls, query)` (src/app.py lines 49-70). For each
URL the whole try-block — download, decode, preprocess, CLIP encoding and
the similarity computation — is abstracted by `proc url query`, which
returns either the similarity score or the exception message. A URL is kept
when its score is strictly greater than `0.2`; an exception reports
`Error processing image: ...` and skips the URL. Returns the
`filtered_urls` list and the reported error messages. -/
def filter_images (proc : String → String → Except String Rat)
    (query : String) : List String → List String × List String
  | [] => ([], [])
  | url :: rest =>
    let r := filter_images proc query rest
    match proc url query with
    | .ok similarity =>
      (if mkRat 1 5 < similarity then url :: r.1 else r.1, r.2)
    | .error e => (r.1, ("Error processing image: " ++ e) :: r.2)

/-- The `for i, url in enumerate(image_urls)` loop of
`download_images_as_zip` (src/app.py lines 76-83). `i` is the current
enumeration index. Returns the zip entries written — each a
`(name, bytes)` pair, the name being `image_{i+1}.jpg` — and the
`st.error` messages reported for URLs whose download raised. -/
def zipLoop (get : String → Except String (Nat × String)) :
    Nat → List String → List (String × String) × List String
  | _, [] => ([], [])
  | i, url :: rest =>
    let r := zipLoop get (i + 1) rest
    match get url with
    | .ok resp =>
      if resp.1 = 200 then
        (("image_" ++ toString (i + 1) ++ ".jpg", resp.2) :: r.1, r.2)
      else r
    | .error e =>
      (r.1, ("Error downloading image " ++ toString (i + 1) ++ ": " ++ e)
        :: r.2)

/-- The `BytesIO` buffer holding the zip archive: its entries and the
current stream offset. Writing the archive leaves the offset at the end of
the written data; `seek(0)` resets it. -/
structure ZipBuffer where
  entries : List (String × String)
  pos : Nat
deriving DecidableEq, Repr

/-- Embeds `download_images_as_zip(image_urls)` (src/app.py lines 72-86): writes
one `image_{i+1}.jpg` entry per URL whose GET returned status 200, then
`zip_buffer.seek(0)`. Returns the buffer and the reported error messages. -/
def download_images_as_zip (get : String → Except String (Nat × String))
    (image_urls : List String) : ZipBuffer × List String :=
  let r := zipLoop get 0 image_urls
  let written : ZipBuffer :=
    { entries := r.1, pos := (r.1.map fun e => e.2.length).sum }
  ({ written with pos := 0 }, r.2)

/-- The observable outcome of one press of the `Fetch Images` button
(src/app.py lines 99-127): the sidebar error shown (if any), the API
request log, whether `filter_images` ran, the final `image_urls` list, the
success message, the thumbnails displayed, the number of columns created by
`st.columns`, the `Showing ... out of ...` caption, and the zip buffer
offered through the download button (if any). -/
structure HandlerOutput where
  sidebarError : Option String
  requests : List ReqEntry
  filterRan : Bool
  fetchedUrls : List String
  successMsg : Option String
  displayedUrls : List String
  numColumns : Nat
  showingMsg : Option String
  zipOffered : Option ZipBuffer
deriving DecidableEq, Repr

/-- Embeds `MAX_DISPLAY = 20` (src/app.py line 113). -/
def MAX_DISPLAY : Nat := 20

/-- The `Fetch Images` button handler (src/app.py lines 99-127): reject an
empty keyword, otherwise fetch, optionally filter, and when the resulting
list is non-empty display up to `MAX_DISPLAY` thumbnails across
`min(5, len(image_urls))` columns and offer the zip built from the whole
list. -/
def fetchButtonHandler (respond : Nat → Nat × List Photo)
    (proc : String → String → Except String Rat)
    (get : String → Except String (Nat × String))
    (query : String) (numImages : Nat) (resolution : String)
    (aiFilter : Bool) : HandlerOutput :=
  if query = "" then
    { sidebarError := some "Please enter a keyword.", requests := [],
      filterRan := false, fetchedUrls := [], successMsg := none,
      displayedUrls := [], numColumns := 0, showingMsg := none,
      zipOffered := none }
  else
    let fetched := fetch_image_urls respond numImages resolution
    let image_urls :=
      if aiFilter then (filter_images proc query fetched.1).1 else fetched.1
    if image_urls.isEmpty then
      { sidebarError := none, requests := fetched.2.1, filterRan := aiFilter,
        fetchedUrls := image_urls, successMsg := none, displayedUrls := [],
        numColumns := 0, showingMsg := none, zipOffered := none }
    else
      { sidebarError := none, requests := fetched.2.1, filterRan := aiFilter,
        fetchedUrls := image_urls,
        successMsg := some ("Fetched " ++ toString image_urls.length
          ++ " images successfully! 🎉"),
        displayedUrls := image_urls.take MAX_DISPLAY,
        numColumns := min 5 image_urls.length,
        showingMsg := some ("Showing "
          ++ toString (min image_urls.length MAX_DISPLAY) ++ " out of "
          ++ toString image_urls.length ++ " images."),
        zipOffered := some (download_images_as_zip get image_urls).1 }

/-- A concrete scoring oracle used in concrete evaluations: the model
scores URL `"a"` at `1/2` and every other URL at `1/10`, raising no
exception. -/
def exProc : String → String → Except String Rat :=
  fun u _ => if u = "a" then .ok (mkRat 1 2) else .ok (mkRat 1 10)

/-- The scores `exProc` assigns, as a plain function. -/
def exScore : String → Rat :=
  fun u => if u = "a" then mkRat 1 2 else mkRat 1 10

/-- Claim C1, counterexample: with two fetched URLs scored 1/2 and 1/10,
`filter_images` returns only the first, so its output is not a permutation
of its input — the function filters, it does not re-rank. -/
theorem filter_images_not_a_permutation :
    ¬ List.Perm (filter_images exProc "cats" ["a", "b"]).1 ["a", "b"] := by
  decide

/-- Claim C1 as amended: when AI filtering is enabled the result of
`filter_images` is a subsequence of its input — URLs are kept in their
original order and none is duplicated or moved; no re-ranking by similarity
score takes place. -/
theorem filter_images_sublist (proc : String → String → Except String Rat)
    (query : String) (image_urls : List String) :
    ((filter_images proc query image_urls).1).Sublist image_urls := by
  induction image_urls with
  | nil => simp [filter_images]
  | cons url rest ih =>
    simp only [filter_images]
    cases hp : proc url query with
    | ok s =>
      by_cases hs : mkRat 1 5 < s
      · simpa [hs] using ih.cons₂ url
      · simpa [hs] using ih.cons url
    | error e => simpa using ih.cons url

/-- Claim C2: when the model scores every URL without raising,
`filter_images` returns exactly the input URLs whose similarity score is
strictly greater than 0.2, in their original input order. -/
theorem filter_images_eq_filter
    (proc : String → String → Except String Rat) (score : String → Rat)
    (query : String) (image_urls : List String)
    (h : ∀ u ∈ image_urls, proc u query = .ok (score u)) :
    (filter_images proc query image_urls).1
      = image_urls.filter (fun u => decide (mkRat 1 5 < score u)) := by
  induction image_urls with
  | nil => simp [filter_images]
  | cons url rest ih =>
    have hu : proc url query = .ok (score url) := h url (by simp)
    have hr := ih (fun u hm => h u (List.mem_cons_of_mem _ hm))
    by_cases hs : mkRat 1 5 < score url <;>
      simp [filter_images, hu, hs, hr, List.filter_cons]

/-- Claim C2, witness: the theorem instantiated at the concrete oracle
`exProc` on the input `["a", "b"]`. -/
theorem filter_images_eq_filter_witness :
    (filter_images exProc "cats" ["a", "b"]).1
      = (["a", "b"]).filter (fun u => decide (mkRat 1 5 < exScore u)) :=
  filter_images_eq_filter exProc exScore "cats" ["a", "b"]
    (by intro u hu; fin_cases hu <;> rfl)

/-- If any request recorded by `fetchLoop` came back with a status other
than 200, the URL list it returns is empty. -/
theorem fetchLoop_empty_of_bad (respond : Nat → Nat × List Photo)
    (numImages : Nat) (res : String) :
    ∀ fuel page acc e,
      e ∈ (fetchLoop respond numImages res fuel page acc).2.1 →
      e.status ≠ 200 →
      (fetchLoop respond numImages res fuel page acc).1 = [] := by
  intro fuel
  induction fuel with
  | zero =>
    intro page acc e he _
    simp [fetchLoop] at he
  | succ fuel ih =>
    intro page acc e he hne
    simp only [fetchLoop] at he ⊢
    split_ifs at he ⊢ with h200 hstop
    · simp only [List.mem_singleton] at he
      rw [he] at hne
      exact absurd h200 hne
    · simp only [List.mem_cons] at he
      rcases he with he | he
      · rw [he] at hne
        exact absurd h200 hne
      · simp only [ih (page + 1) _ e he hne]
    · rfl

/-- Claim C3: if any page request made by `fetch_image_urls` returned a
status other than 200, the function returns the empty list — every URL
already collected from earlier successful pages is discarded. -/
theorem fetch_image_urls_empty_on_error (respond : Nat → Nat × List Photo)
    (numImages : Nat) (resolution : String) (e : ReqEntry)
    (he : e ∈ (fetch_image_urls respond numImages resolution).2.1)
    (hne : e.status ≠ 200) :
    (fetch_image_urls respond numImages resolution).1 = [] := by
  have h := fetchLoop_empty_of_bad respond numImages resolution
    (numImages / 80 + 1) 1 [] e (by simpa [fetch_image_urls] using he) hne
  simp [fetch_image_urls, h]

/-- Claim C3, witness: a single page answered with status 404 yields the
empty result. -/
theorem fetch_image_urls_empty_on_error_witness :
    (fetch_image_urls (fun _ => (404, [])) 3 "Original").1 = [] :=
  fetch_image_urls_empty_on_error (fun _ => (404, [])) 3 "Original"
    ⟨1, 3, 0, 404⟩ (by decide) (by decide)

/-- The loop `fetchLoop` issues at most `fuel` requests. -/
theorem fetchLoop_log_length (respond : Nat → Nat × List Photo)
    (numImages : Nat) (res : String) :
    ∀ fuel page acc,
      (fetchLoop respond numImages res fuel page acc).2.1.length ≤ fuel := by
  intro fuel
  induction fuel with
  | zero => intro page acc; simp [fetchLoop]
  | succ fuel ih =>
    intro page acc
    simp only [fetchLoop]
    split_ifs with h200 hstop
    · simp
    · have h := ih (page + 1) (acc ++ (respond page).2.map (photoUrl res))
      simp only [List.length_cons]
      omega
    · simp

/-- Every request `fetchLoop` records asks for
`per_page = min 80 (numImages - collected)` and is issued only while fewer
than `numImages` URLs have been collected. -/
theorem fetchLoop_log_entries (respond : Nat → Nat × List Photo)
    (numImages : Nat) (res : String) :
    ∀ fuel page acc,
      acc.length < numImages →
      ∀ e ∈ (fetchLoop respond numImages res fuel page acc).2.1,
        e.perPage = min 80 (numImages - e.collectedBefore)
        ∧ e.collectedBefore < numImages := by
  intro fuel
  induction fuel with
  | zero =>
    intro page acc _ e he
    simp [fetchLoop] at he
  | succ fuel ih =>
    intro page acc hacc e he
    simp only [fetchLoop] at he
    split_ifs at he with h200 hstop
    · rw [List.mem_singleton.mp he]
      exact ⟨rfl, hacc⟩
    · simp only [List.mem_cons] at he
      rcases he with he | he
      · rw [he]
        exact ⟨rfl, hacc⟩
      · have hlt : (acc ++ (respond page).2.map (photoUrl res)).length
            < numImages := by omega
        exact ih (page + 1) _ hlt e he
    · rw [List.mem_singleton.mp he]
      exact ⟨rfl, hacc⟩

/-- Claim C4: for `numImages ≥ 1`, `fetch_image_urls` returns at most
`numImages` URLs, requests at most `numImages / 80 + 1` pages, every
request asks for `per_page = min 80 (numImages - collected so far)`, and
every request is issued only while fewer than `numImages` URLs have been
collected (the loop stops as soon as enough are collected). -/
theorem fetch_image_urls_pagination (respond : Nat → Nat × List Photo)
    (numImages : Nat) (resolution : String) (h : 1 ≤ numImages) :
    (fetch_image_urls respond numImages resolution).1.length ≤ numImages
    ∧ (fetch_image_urls respond numImages resolution).2.1.length
        ≤ numImages / 80 + 1
    ∧ ∀ e ∈ (fetch_image_urls respond numImages resolution).2.1,
        e.perPage = min 80 (numImages - e.collectedBefore)
        ∧ e.collectedBefore < numImages := by
  refine ⟨?_, ?_, ?_⟩
  · simp [fetch_image_urls]
  · have hlen := fetchLoop_log_length respond numImages resolution
      (numImages / 80 + 1) 1 []
    simpa [fetch_image_urls] using hlen
  · intro e he
    exact fetchLoop_log_entries respond numImages resolution
      (numImages / 80 + 1) 1 [] (by simpa using h) e
      (by simpa [fetch_image_urls] using he)

/-- Claim C4, witness: the pagination bounds at a concrete one-photo
response and `numImages = 1`. -/
theorem fetch_image_urls_pagination_witness :
    (fetch_image_urls (fun _ => (200, [⟨"s", "m", "l", "o"⟩])) 1
        "640x480").1.length ≤ 1
    ∧ (fetch_image_urls (fun _ => (200, [⟨"s", "m", "l", "o"⟩])) 1
        "640x480").2.1.length ≤ 1 / 80 + 1
    ∧ ∀ e ∈ (fetch_image_urls (fun _ => (200, [⟨"s", "m", "l", "o"⟩])) 1
        "640x480").2.1,
        e.perPage = min 80 (1 - e.collectedBefore)
        ∧ e.collectedBefore < 1 :=
  fetch_image_urls_pagination (fun _ => (200, [⟨"s", "m", "l", "o"⟩])) 1
    "640x480" (by decide)

/-- The zip entries written by the download loop are exactly the image of
the enumerated URL list under the per-URL outcome: a `image_{i+1}.jpg`
entry for a 200 response, nothing for a non-200 response or an
exception. -/
theorem zipLoop_entries_eq (get : String → Except String (Nat × String)) :
    ∀ (image_urls : List String) (i : Nat),
      (zipLoop get i image_urls).1
        = (List.enumFrom i image_urls).filterMap (fun p =>
            match get p.2 with
            | .ok resp =>
              if resp.1 = 200 then
                some ("image_" ++ toString (p.1 + 1) ++ ".jpg", resp.2)
              else none
            | .error _ => none) := by
  intro image_urls
  induction image_urls with
  | nil => intro i; simp [zipLoop]
  | cons u rest ih =>
    intro i
    simp only [zipLoop, List.enumFrom, List.filterMap_cons]
    cases hg : get u with
    | ok resp =>
      by_cases hs : resp.1 = 200 <;> simp [hs, ih]
    | error e => simp [ih]

/-- Claim C5: the archive built by `download_images_as_zip` holds, for each
index `i` (counted from 0) whose GET returned status 200, exactly one entry
named `image_{i+1}.jpg` with that response's bytes, and nothing else; a
failed or non-200 download leaves a gap in the numbering because the names
are taken from the original enumeration. -/
theorem download_images_as_zip_entries
    (get : String → Except String (Nat × String))
    (image_urls : List String) :
    (download_images_as_zip get image_urls).1.entries
      = image_urls.enum.filterMap (fun p =>
          match get p.2 with
          | .ok resp =>
            if resp.1 = 200 then
              some ("image_" ++ toString (p.1 + 1) ++ ".jpg", resp.2)
            else none
          | .error _ => none) := by
  simp only [download_images_as_zip, zipLoop_entries_eq, List.enum]

/-- An element of an enumerated list is an element of the list. -/
theorem snd_mem_of_mem_enumFrom {p : Nat × String} :
    ∀ (l : List String) (i : Nat), p ∈ List.enumFrom i l → p.2 ∈ l := by
  intro l
  induction l with
  | nil =>
    intro i hp
    simp [List.enumFrom] at hp
  | cons a rest ih =>
    intro i hp
    simp only [List.enumFrom, List.mem_cons] at hp
    rcases hp with hp | hp
    · subst hp
      exact List.mem_cons_self a rest
    · exact List.mem_cons_of_mem a (ih (i + 1) hp)

/-- Claim C10: `download_images_as_zip` always returns a buffer rewound to
offset 0, and when every download raises or comes back with a status other
than 200 the archive simply has zero entries. -/
theorem download_images_as_zip_total
    (get : String → Except String (Nat × String))
    (image_urls : List String) :
    (download_images_as_zip get image_urls).1.pos = 0
    ∧ ((∀ u ∈ image_urls, ∀ resp, get u = .ok resp → resp.1 ≠ 200) →
        (download_images_as_zip get image_urls).1.entries = []) := by
  constructor
  · rfl
  · intro hfail
    have hz := zipLoop_entries_eq get image_urls 0
    simp only [download_images_as_zip]
    rw [hz, List.filterMap_eq_nil_iff]
    intro p hp
    cases hg : get p.2 with
    | ok resp =>
      have hne := hfail p.2 (snd_mem_of_mem_enumFrom image_urls 0 hp) resp hg
      simp [hne]
    | error e => simp

/-- Claim C10, witness: with every URL answered by status 404 the buffer is
rewound and the archive is empty. -/
theorem download_images_as_zip_total_witness :
    (download_images_as_zip (fun _ => .ok (404, "x")) ["a"]).1.pos = 0
    ∧ (download_images_as_zip (fun _ => .ok (404, "x")) ["a"]).1.entries
        = [] :=
  ⟨(download_images_as_zip_total (fun _ => .ok (404, "x")) ["a"]).1,
   (download_images_as_zip_total (fun _ => .ok (404, "x")) ["a"]).2
     (by
      intro u hu resp hresp
      injection hresp with h
      subst h
      decide)⟩

/-- The filter `filter_images` processes a concatenation piecewise: kept URLs and
error reports both concatenate in input order. -/
theorem filter_images_append (proc : String → String → Except String Rat)
    (query : String) :
    ∀ l1 l2 : List String,
      filter_images proc query (l1 ++ l2)
        = ((filter_images proc query l1).1
            ++ (filter_images proc query l2).1,
           (filter_images proc query l1).2
            ++ (filter_images proc query l2).2) := by
  intro l1
  induction l1 with
  | nil => intro l2; simp [filter_images]
  | cons u rest ih =>
    intro l2
    simp only [List.cons_append, filter_images]
    cases hp : proc u query with
    | ok s => by_cases hs : mkRat 1 5 < s <;> simp [hs, ih]
    | error e => simp [ih]

/-- The download loop processes a concatenation piecewise, the second part
enumerated from the shifted index. -/
theorem zipLoop_append (get : String → Except String (Nat × String)) :
    ∀ (l1 l2 : List String) (i : Nat),
      zipLoop get i (l1 ++ l2)
        = ((zipLoop get i l1).1 ++ (zipLoop get (i + l1.length) l2).1,
           (zipLoop get i l1).2 ++ (zipLoop get (i + l1.length) l2).2) := by
  intro l1
  induction l1 with
  | nil => intro l2 i; simp [zipLoop]
  | cons u rest ih =>
    intro l2 i
    simp only [List.cons_append, zipLoop]
    cases hg : get u with
    | ok resp =>
      by_cases hs : resp.1 = 200 <;>
        simp [hs, ih, Nat.add_assoc, Nat.add_comm, Nat.add_left_comm]
    | error e => simp [ih, Nat.add_assoc, Nat.add_comm, Nat.add_left_comm]

/-- Claim C6: an exception raised while processing one image is contained
by the per-URL try/except. In `filter_images` the failing URL contributes
no kept URL and one `Error processing image: ...` report, and every other
URL is processed as usual; in the download loop the failing URL at index
`i + l1.length` contributes no zip entry and one
`Error downloading image {index+1}: ...` report, and the remaining URLs
keep their original enumeration. Both functions are total, so no exception
escapes to the caller. -/
theorem per_image_exception_skips_only_that_url
    (proc : String → String → Except String Rat)
    (get : String → Except String (Nat × String))
    (query u u2 e e2 : String) (l1 l2 m1 m2 : List String) (i : Nat)
    (hu : proc u query = .error e) (hg : get u2 = .error e2) :
    filter_images proc query (l1 ++ u :: l2)
      = ((filter_images proc query l1).1 ++ (filter_images proc query l2).1,
         (filter_images proc query l1).2
           ++ ("Error processing image: " ++ e)
             :: (filter_images proc query l2).2)
    ∧ zipLoop get i (m1 ++ u2 :: m2)
      = ((zipLoop get i m1).1 ++ (zipLoop get (i + m1.length + 1) m2).1,
         (zipLoop get i m1).2
           ++ ("Error downloading image " ++ toString (i + m1.length + 1)
               ++ ": " ++ e2) :: (zipLoop get (i + m1.length + 1) m2).2) := by
  constructor
  · rw [filter_images_append proc query l1 (u :: l2)]
    simp [filter_images, hu]
  · rw [zipLoop_append get m1 (u2 :: m2) i]
    simp [zipLoop, hg, Nat.add_assoc]

/-- Claim C6, witness: a scoring exception on `"b"` after `"a"` and a
download exception on `"y"` after `"x"`, with concrete oracles that fail on
exactly those URLs. -/
theorem per_image_exception_skips_only_that_url_witness :
    (filter_images
        (fun v q => if v = "b" then .error "boom" else exProc v q)
        "cats" (["a"] ++ "b" :: ["c"])
      = ((filter_images
            (fun v q => if v = "b" then .error "boom" else exProc v q)
            "cats" ["a"]).1
          ++ (filter_images
            (fun v q => if v = "b" then .error "boom" else exProc v q)
            "cats" ["c"]).1,
         (filter_images
            (fun v q => if v = "b" then .error "boom" else exProc v q)
            "cats" ["a"]).2
          ++ ("Error processing image: " ++ "boom")
            :: (filter_images
              (fun v q => if v = "b" then .error "boom" else exProc v q)
              "cats" ["c"]).2))
    ∧ zipLoop (fun v => if v = "y" then .error "net" else .ok (200, v))
        0 (["x"] ++ "y" :: ["z"])
      = ((zipLoop (fun v => if v = "y" then .error "net" else .ok (200, v))
            0 ["x"]).1
          ++ (zipLoop
            (fun v => if v = "y" then .error "net" else .ok (200, v))
            (0 + (["x"] : List String).length + 1) ["z"]).1,
         (zipLoop (fun v => if v = "y" then .error "net" else .ok (200, v))
            0 ["x"]).2
          ++ ("Error downloading image "
              ++ toString (0 + (["x"] : List String).length + 1)
              ++ ": " ++ "net")
            :: (zipLoop
              (fun v => if v = "y" then .error "net" else .ok (200, v))
              (0 + (["x"] : List String).length + 1) ["z"]).2) :=
  per_image_exception_skips_only_that_url
    (fun v q => if v = "b" then .error "boom" else exProc v q)
    (fun v => if v = "y" then .error "net" else .ok (200, v))
    "cats" "b" "y" "boom" "net" ["a"] ["c"] ["x"] ["z"] 0 rfl rfl

/-- Claim C7: when the pipeline ends with a non-empty list of URLs, the
page displays `min 20 n` thumbnails across `min 5 n` columns, while the
zip offered for download is built from all `n` URLs. -/
theorem fetch_button_display (respond : Nat → Nat × List Photo)
    (proc : String → String → Except String Rat)
    (get : String → Except String (Nat × String))
    (query : String) (numImages : Nat) (resolution : String)
    (aiFilter : Bool) (hq : query ≠ "")
    (hne : (fetchButtonHandler respond proc get query numImages resolution
      aiFilter).fetchedUrls ≠ []) :
    (fetchButtonHandler respond proc get query numImages resolution
        aiFilter).displayedUrls.length
      = min 20 (fetchButtonHandler respond proc get query numImages
          resolution aiFilter).fetchedUrls.length
    ∧ (fetchButtonHandler respond proc get query numImages resolution
        aiFilter).numColumns
      = min 5 (fetchButtonHandler respond proc get query numImages
          resolution aiFilter).fetchedUrls.length
    ∧ (fetchButtonHandler respond proc get query numImages resolution
        aiFilter).zipOffered
      = some (download_images_as_zip get
          (fetchButtonHandler respond proc get query numImages resolution
            aiFilter).fetchedUrls).1 := by
  by_cases hemp : (if aiFilter then
      (filter_images proc query
        (fetch_image_urls respond numImages resolution).1).1
    else (fetch_image_urls respond numImages resolution).1).isEmpty
  · exfalso
    apply hne
    simp [fetchButtonHandler, hq, hemp, List.isEmpty_iff.mp hemp]
  · simp [fetchButtonHandler, hq, hemp, MAX_DISPLAY, List.length_take]

/-- Claim C7, witness: one fetched photo, no AI filtering: one thumbnail,
one column, and the zip built from the full (single-element) list. -/
theorem fetch_button_display_witness :
    (fetchButtonHandler (fun _ => (200, [⟨"s", "m", "l", "o"⟩])) exProc
        (fun v => .ok (200, v)) "cats" 1 "640x480" false).displayedUrls.length
      = min 20 (fetchButtonHandler (fun _ => (200, [⟨"s", "m", "l", "o"⟩]))
          exProc (fun v => .ok (200, v)) "cats" 1 "640x480"
          false).fetchedUrls.length
    ∧ (fetchButtonHandler (fun _ => (200, [⟨"s", "m", "l", "o"⟩])) exProc
        (fun v => .ok (200, v)) "cats" 1 "640x480" false).numColumns
      = min 5 (fetchButtonHandler (fun _ => (200, [⟨"s", "m", "l", "o"⟩]))
          exProc (fun v => .ok (200, v)) "cats" 1 "640x480"
          false).fetchedUrls.length
    ∧ (fetchButtonHandler (fun _ => (200, [⟨"s", "m", "l", "o"⟩])) exProc
        (fun v => .ok (200, v)) "cats" 1 "640x480" false).zipOffered
      = some (download_images_as_zip (fun v => .ok (200, v))
          (fetchButtonHandler (fun _ => (200, [⟨"s", "m", "l", "o"⟩]))
            exProc (fun v => .ok (200, v)) "cats" 1 "640x480"
            false).fetchedUrls).1 :=
  fetch_button_display (fun _ => (200, [⟨"s", "m", "l", "o"⟩])) exProc
    (fun v => .ok (200, v)) "cats" 1 "640x480" false (by decide) (by decide)

/-- Claim C8: `photoUrl` — the resolution dispatch inside
`fetch_image_urls` — maps `"640x480"` to the photo's `small` URL,
`"1280x720"` to `medium`, `"1920x1080"` to `large`, and any other
resolution string to `original`; and for a page of photos answered with
status 200, `fetch_image_urls` collects exactly the photos' URLs under
that mapping. -/
theorem fetch_image_urls_resolution (p : Photo) (res : String)
    (respond : Nat → Nat × List Photo) (ps : List Photo) (numImages : Nat)
    (hr1 : res ≠ "640x480") (hr2 : res ≠ "1280x720")
    (hr3 : res ≠ "1920x1080") (hresp : respond 1 = (200, ps))
    (hn : numImages ≤ ps.length) :
    photoUrl "640x480" p = p.small
    ∧ photoUrl "1280x720" p = p.medium
    ∧ photoUrl "1920x1080" p = p.large
    ∧ photoUrl res p = p.original
    ∧ ∀ resolution,
        (fetch_image_urls respond numImages resolution).1
          = (ps.map (photoUrl resolution)).take numImages := by
  refine ⟨rfl, rfl, rfl, ?_, ?_⟩
  · simp [photoUrl, hr1, hr2, hr3]
  · intro resolution
    simp only [fetch_image_urls, fetchLoop, hresp]
    simp [hn]

/-- Claim C8, witness: the resolution mapping at a concrete photo, and a
single-page fetch collecting its URL. -/
theorem fetch_image_urls_resolution_witness :
    photoUrl "640x480" ⟨"s", "m", "l", "o"⟩ = "s"
    ∧ photoUrl "1280x720" ⟨"s", "m", "l", "o"⟩ = "m"
    ∧ photoUrl "1920x1080" ⟨"s", "m", "l", "o"⟩ = "l"
    ∧ photoUrl "Original" ⟨"s", "m", "l", "o"⟩ = "o"
    ∧ ∀ resolution,
        (fetch_image_urls (fun _ => (200, [⟨"s", "m", "l", "o"⟩])) 1
            resolution).1
          = (([⟨"s", "m", "l", "o"⟩] : List Photo).map
              (photoUrl resolution)).take 1 :=
  fetch_image_urls_resolution ⟨"s", "m", "l", "o"⟩ "Original"
    (fun _ => (200, [⟨"s", "m", "l", "o"⟩])) [⟨"s", "m", "l", "o"⟩] 1
    (by decide) (by decide) (by decide) rfl (by decide)

/-- Claim C9: pressing `Fetch Images` with an empty keyword reports
`Please enter a keyword.` in the sidebar and skips the pipeline entirely:
no API request is issued, the filter never runs, nothing is displayed and
no zip is built. -/
theorem fetch_button_empty_keyword (respond : Nat → Nat × List Photo)
    (proc : String → String → Except String Rat)
    (get : String → Except String (Nat × String))
    (numImages : Nat) (resolution : String) (aiFilter : Bool) :
    fetchButtonHandler respond proc get "" numImages resolution aiFilter
      = { sidebarError := some "Please enter a keyword.", requests := [],
          filterRan := false, fetchedUrls := [], successMsg := none,
          displayedUrls := [], numColumns := 0, showingMsg := none,
          zipOffered := none } := rfl

end ImageDownloader
